import Mathlib

/-! Verification development for the agent fragment.

Three source files are covered:

* `pkg/gohai/network/network_windows.go`  (`getNetworkInfo`)
* `pkg/status/status_system_probe.go`     (`GetSystemProbeStats`)
* `test/integration/dogstatsd/origin_detection.go` (the UDS listener it drives)

Go strings are byte sequences; they are embedded as lists of byte values.
-/

set_option autoImplicit false
set_option maxRecDepth 100000

namespace Agent

/-! ## Go strings -/

/-- A Go string: an immutable sequence of bytes (each element is a byte value). -/
abbrev GoString := List Nat

/-- The bytes of a literal (UTF-8 encoding of each character). -/
def bytes (s : String) : GoString :=
  s.toList.flatMap (fun c => (String.utf8EncodeChar c).map UInt8.toNat)

/-- Go `strings.Index(s, substr)`: the byte offset of the first occurrence of
`substr` in `s`, `none` standing for Go's `-1`. -/
def Index : GoString → GoString → Option Nat
  | [], substr => if substr.isEmpty then some 0 else none
  | c :: cs, substr =>
    if substr.isPrefixOf (c :: cs) then some 0
    else (Index cs substr).map (· + 1)

/-- Go `strings.Contains(s, substr)`, which is `Index(s, substr) >= 0`. -/
def Contains (s substr : GoString) : Bool :=
  (Index s substr).isSome

/-- The loop of Go `strings.genSplit` (with `sepSave = 0`): at most `n` cuts
at the first occurrence of `sep`, the remainder being the last piece. -/
def genSplitLoop (sep : GoString) : Nat → GoString → List GoString
  | 0, s => [s]
  | n + 1, s =>
    match Index s sep with
    | none => [s]
    | some m => s.take m :: genSplitLoop sep n (s.drop (m + sep.length))

/-- Go `strings.Split(s, sep)` for a non-empty separator.  Go bounds the number
of cuts by `Count(s, sep)`, itself at most `len(s)`; the loop here is bounded
by `len(s)` and leaves through the failed `Index` at the same point.  For the
empty separator Go splits after each UTF-8 sequence; that case (not reached
from this repository, whose separators are constants) is rendered bytewise. -/
def Split (s sep : GoString) : List GoString :=
  if sep.isEmpty then s.map (fun c => [c])
  else genSplitLoop sep s.length s

/-- Go `strings.Trim(s, cutset)` for an ASCII cutset: leading and trailing
bytes that belong to the cutset are removed (Go trims the right end first). -/
def Trim (s cutset : GoString) : GoString :=
  ((s.reverse.dropWhile (fun c => decide (c ∈ cutset))).reverse).dropWhile
    (fun c => decide (c ∈ cutset))

/-! ## Go values, errors and maps -/

/-- A Go `error` value that is not nil, identified by what `Error()` returns. -/
structure GoError where
  Error : GoString
  deriving DecidableEq, Repr

/-- A Go `interface{}` value as stored in `map[string]interface{}`. -/
inductive GoValue where
  | null : GoValue
  | bool (b : Bool) : GoValue
  | number (n : Int) : GoValue
  | string (s : GoString) : GoValue
  | array (vs : List GoValue) : GoValue
  | object (kvs : List (GoString × GoValue)) : GoValue

/-- A Go `map[string]interface{}` as an association list. -/
abbrev GoMap := List (GoString × GoValue)

/-- The keys present in a map. -/
def GoMap.keys (m : GoMap) : List GoString := m.map Prod.fst

/-- The Go read `m[k]` with the comma-ok flag folded into the option. -/
def GoMap.get (m : GoMap) (k : GoString) : Option GoValue :=
  (m.find? (fun kv => decide (kv.1 = k))).map Prod.snd

/-- The Go assignment `m[k] = v`. -/
def GoMap.set (m : GoMap) (k : GoString) (v : GoValue) : GoMap :=
  if k ∈ m.keys then m.map (fun kv => if kv.1 = k then (k, v) else kv)
  else m ++ [(k, v)]

/-! ## `pkg/gohai/network/network_windows.go` -/

/-- A run-time panic of the Go program. -/
inductive Panic where
  | indexOutOfRange (index length : Nat) : Panic
  deriving DecidableEq, Repr

/-- The Go slice read `elt[i]`, which panics when `i` is out of range. -/
def sliceIndex (elt : List GoString) (i : Nat) : Except Panic GoString :=
  match elt.get? i with
  | some x => Except.ok x
  | none => Except.error (Panic.indexOutOfRange i elt.length)

/-- The three locals `ip`, `mac`, `ipv6` of `getNetworkInfo`. -/
structure Picked where
  ip : GoString
  mac : GoString
  ipv6 : GoString
  deriving DecidableEq, Repr

/-- One iteration of the `for _, line := range lines` loop. -/
def pickLine (p : Picked) (line : GoString) : Picked :=
  if Contains line (bytes "IPv4") then { p with ip := line }
  else if Contains line (bytes "Physical Address") then { p with mac := line }
  else if Contains line (bytes "IPv6") then { p with ipv6 := line }
  else p

/-- The value stored for a line piece:
`strings.Trim(strings.Trim(x, "\r"), "(Preferred) ")`. -/
def cleanValue (x : GoString) : GoString :=
  Trim (Trim x (bytes "\r")) (bytes "(Preferred) ")

/-- The error built by `errors.New("not connected to the network")`. -/
def notConnected : GoError := ⟨bytes "not connected to the network"⟩

/-- Function `getNetworkInfo`, with the result of
`exec.Command("ipconfig", "-all").CombinedOutput()` as its input: the output
bytes and the error (`none` for nil).  The result is the returned pair
`(networkInfo, err)`, or the panic that ended the call. -/
def getNetworkInfo (out : GoString) (cmdErr : Option GoError) :
    Except Panic (GoMap × Option GoError) :=
  let networkInfo : GoMap := []
  match cmdErr with
  | some err => Except.ok (networkInfo, some err)
  | none =>
    let lines := Split out (bytes "\n")
    let p := lines.foldl pickLine ⟨[], [], []⟩
    let elt := Split p.ip (bytes ": ")
    if 2 ≤ elt.length then
      match sliceIndex elt 1 with
      | Except.error e => Except.error e
      | Except.ok x1 =>
        let networkInfo := networkInfo.set (bytes "ipaddress") (GoValue.string (cleanValue x1))
        let elt := Split p.mac (bytes ": ")
        match sliceIndex elt 1 with
        | Except.error e => Except.error e
        | Except.ok x2 =>
          let networkInfo := networkInfo.set (bytes "macaddress") (GoValue.string (cleanValue x2))
          let elt := Split p.ipv6 (bytes ": ")
          match sliceIndex elt 1 with
          | Except.error e => Except.error e
          | Except.ok x3 =>
            let networkInfo :=
              networkInfo.set (bytes "ipaddressv6") (GoValue.string (cleanValue x3))
            Except.ok (networkInfo, none)
    else
      Except.ok (networkInfo, some notConnected)

/-- The last line of the command output that contains "IPv4", if there is one. -/
def lastIPv4Line (out : GoString) : Option GoString :=
  ((Split out (bytes "\n")).filter (fun l => Contains l (bytes "IPv4"))).getLast?

/-- The output has no line containing "IPv4", or the last such line does not
contain the separator ": ". -/
def noUsableIPv4 (out : GoString) : Prop :=
  match lastIPv4Line out with
  | none => True
  | some l => Contains l (bytes ": ") = false

/-- An `ipconfig -all` output of a host without IPv6: it has a
"Physical Address" line and an "IPv4" line, and no "IPv6" line. -/
def outputWithoutIPv6 : GoString :=
  bytes ("Windows IP Configuration\r\n\r\nEthernet adapter Ethernet:\r\n\r\n" ++
    "   Physical Address. . . . . . . . . : 00-1A-2B-3C-4D-5E\r\n" ++
    "   IPv4 Address. . . . . . . . . . . : 192.168.1.5(Preferred) \r\n")

/-- An `ipconfig -all` output whose IPv6 line carries the link-local address
`fe80::1`. -/
def outputLinkLocal : GoString :=
  bytes ("Windows IP Configuration\r\n\r\nEthernet adapter Ethernet:\r\n\r\n" ++
    "   Physical Address. . . . . . . . . : 00-1A-2B-3C-4D-5E\r\n" ++
    "   Link-local IPv6 Address . . . . . : fe80::1(Preferred) \r\n" ++
    "   IPv4 Address. . . . . . . . . . . : 192.168.1.5(Preferred) \r\n")

/-! ## `pkg/status/status_system_probe.go` -/

/-- The calls `GetSystemProbeStats` makes to the remote system-probe client. -/
inductive Call where
  | GetRemoteSystemProbeUtil (socketPath : GoString) : Call
  | GetStats : Call
  deriving DecidableEq, Repr

/-- The package `pkg/process/net` as seen by `GetSystemProbeStats`: the two
functions it calls, each returning its value or a non-nil error.  `Util` is
the type of the remote client. -/
structure ProbeNet (Util : Type) where
  GetRemoteSystemProbeUtil : GoString → Except GoError Util
  GetStats : Util → Except GoError GoMap

/-- Go `fmt.Sprintf(prefix + "%v", err)` for a non-nil error: the prefix
followed by `err.Error()`. -/
def SprintfV (pre : GoString) (err : GoError) : GoString :=
  pre ++ err.Error

/-- What a call of `GetSystemProbeStats` does: the map it returns and the calls
it made to the remote client, in order. -/
structure StatsRun where
  result : GoMap
  calls : List Call

/-- Function `GetSystemProbeStats`. -/
def GetSystemProbeStats {Util : Type} (net : ProbeNet Util) (socketPath : GoString) :
    StatsRun :=
  match net.GetRemoteSystemProbeUtil socketPath with
  | Except.error err =>
    { result := [(bytes "Errors", GoValue.string (SprintfV [] err))],
      calls := [Call.GetRemoteSystemProbeUtil socketPath] }
  | Except.ok probeUtil =>
    match net.GetStats probeUtil with
    | Except.error err =>
      { result := [(bytes "Errors",
          GoValue.string (SprintfV (bytes "issue querying stats from system probe: ") err))],
        calls := [Call.GetRemoteSystemProbeUtil socketPath, Call.GetStats] }
    | Except.ok systemProbeDetails =>
      { result := systemProbeDetails,
        calls := [Call.GetRemoteSystemProbeUtil socketPath, Call.GetStats] }

/-- Obtaining the remote client failed. -/
def ConnectionFailed {Util : Type} (net : ProbeNet Util) (socketPath : GoString) : Prop :=
  ∃ e, net.GetRemoteSystemProbeUtil socketPath = Except.error e

/-- The remote client was obtained and its `GetStats` query failed. -/
def QueryFailed {Util : Type} (net : ProbeNet Util) (socketPath : GoString) : Prop :=
  ∃ u e, net.GetRemoteSystemProbeUtil socketPath = Except.ok u ∧ net.GetStats u = Except.error e

/-- A remote client that cannot be reached. -/
def unreachableNet : ProbeNet Unit where
  GetRemoteSystemProbeUtil := fun _ => Except.error ⟨bytes "socket path does not exist"⟩
  GetStats := fun _ => Except.ok []

/-- A remote client that is reached and whose stats query times out. -/
def timeoutNet : ProbeNet Unit where
  GetRemoteSystemProbeUtil := fun _ => Except.ok ()
  GetStats := fun _ => Except.error ⟨bytes "timeout"⟩

/-- A remote client that answers with two counters. -/
def healthyNet : ProbeNet Unit where
  GetRemoteSystemProbeUtil := fun _ => Except.ok ()
  GetStats := fun _ =>
    Except.ok [(bytes "conns", GoValue.number 3), (bytes "uptime", GoValue.number 120)]

/-- A remote client whose stats carry a counter named "Errors". -/
def errorsCounterNet : ProbeNet Unit where
  GetRemoteSystemProbeUtil := fun _ => Except.ok ()
  GetStats := fun _ =>
    Except.ok [(bytes "Errors", GoValue.number 0), (bytes "conns", GoValue.number 3)]

/-! ## The UDS listener driven by `test/integration/dogstatsd/origin_detection.go`

The listener and its packet types live in `comp/dogstatsd/listeners` and
`comp/dogstatsd/packets`, whose code is not among the sources at hand; only the
integration test that drives them is.  They are modelled from the written
specification (sections 3, 4.2, 4.3 and 6).  The read loop is described by the
sequence of its cycles: the buffer the pool manager handed out and what the
credential-capturing read returned.  A suspended acquisition or a blocked
channel send delays a cycle and does not change what it reads or sends, so
suspension does not appear in the sequence. -/

/-- Modelled from the spec: the `Packet` of section 3, the listener's package
being absent from the sources: the raw datagram payload, the origin (empty if
undetermined) and the pool slot that owns the bytes. -/
structure Packet where
  Contents : GoString
  Origin : GoString
  SourceBuffer : Nat
  deriving DecidableEq, Repr

/-- Modelled from the spec: the batch `Packets` of section 3, an ordered
sequence of packets delivered together by one channel send. -/
abbrev Packets := List Packet

/-- Modelled from the spec: section 4.1 leaves to configuration whether an
oversized datagram is truncated or rejected. -/
inductive Oversize where
  | truncate : Oversize
  | reject : Oversize
  deriving DecidableEq, Repr

/-- Modelled from the spec: the listener's configuration, which the absent
constructor reads: the datagram size given to `NewPool`, the setting
`dogstatsd_origin_detection` and the oversize policy. -/
structure ListenerConfig where
  bufferSize : Nat
  originDetection : Bool
  oversize : Oversize
  deriving DecidableEq, Repr

/-- Modelled from the spec: the peer credential of section 4.2, delivered as
ancillary data of the read (the process id at minimum). -/
structure Credential where
  pid : Nat
  deriving DecidableEq, Repr

/-- Modelled from the spec: the cgroup lookup of section 4.2, from a process id
to the identifier of its container; `none` when the process is not in a
container, has exited, or the lookup is denied. -/
abbrev ContainerLookup := Nat → Option GoString

/-- Modelled from the spec: the origin resolver of section 4.2 with the origin
format of section 6: `container_id://<id>` when resolved, the empty string
otherwise (never an error). -/
def resolveOrigin (lookup : ContainerLookup) (cred : Option Credential) : GoString :=
  match cred with
  | none => []
  | some c =>
    match lookup c.pid with
    | none => []
    | some id => bytes "container_id://" ++ id

/-- Modelled from the spec: what the credential-capturing read of step 2 of
the read loop returns: one datagram with the sender's credential (if the OS
supplied one), an error on one datagram, or the error of a socket closed by
`Stop()`. -/
inductive ReadResult where
  | datagram (payload : GoString) (cred : Option Credential) : ReadResult
  | failed : ReadResult
  | closed : ReadResult
  deriving DecidableEq, Repr

/-- Modelled from the spec: a buffer checked out of the pool (section 3): its
slot and the bytes it holds from its previous use. -/
structure Buffer where
  slot : Nat
  data : GoString
  deriving DecidableEq, Repr

/-- Modelled from the spec: one cycle of the read loop of section 4.3: the
buffer acquired in step 1 and the result of the read of step 2. -/
structure Cycle where
  buffer : Buffer
  read : ReadResult
  deriving DecidableEq, Repr

/-- Modelled from the spec: the states of the listener (section 4.3). -/
inductive ListenerState where
  | Created : ListenerState
  | Listening : ListenerState
  | Stopped : ListenerState
  deriving DecidableEq, Repr

/-- Modelled from the spec: the UDS listener of section 4.3, its code being
absent: its configuration, its state and the batches it has sent on the
packets channel, oldest first. -/
structure UDSListener where
  config : ListenerConfig
  state : ListenerState
  packetsChannel : List Packets
  deriving DecidableEq, Repr

/-- Modelled from the spec: the constructor of the listener; a bind failure is
a construction error and no listener exists (section 7), otherwise the
listener is `Created`. -/
def NewUDSListener (config : ListenerConfig) (bindErr : Option GoError) :
    Except GoError UDSListener :=
  match bindErr with
  | some e => Except.error e
  | none => Except.ok { config := config, state := ListenerState.Created, packetsChannel := [] }

/-- Modelled from the spec: the read of one datagram into a buffer of
`bufferSize` bytes: the first `n` bytes of the buffer are overwritten, the
rest keeps what the buffer held. -/
def readInto (bufferSize : Nat) (buf : Buffer) (payload : GoString) : Nat × GoString :=
  let n := min payload.length bufferSize
  (n, payload.take n ++ buf.data.drop n)

/-- Modelled from the spec: one iteration of the read loop of section 4.3
(steps 2 to 5), the listener's code being absent. -/
def readCycle (lookup : ContainerLookup) (l : UDSListener) (c : Cycle) : UDSListener :=
  match l.state with
  | ListenerState.Listening =>
    match c.read with
    | ReadResult.closed => { l with state := ListenerState.Stopped }
    | ReadResult.failed => l
    | ReadResult.datagram payload cred =>
      if l.config.bufferSize < payload.length ∧ l.config.oversize = Oversize.reject then l
      else
        let filled := readInto l.config.bufferSize c.buffer payload
        let origin := if l.config.originDetection then resolveOrigin lookup cred else []
        let packet : Packet :=
          { Contents := filled.2.take filled.1, Origin := origin, SourceBuffer := c.buffer.slot }
        { l with packetsChannel := l.packetsChannel ++ [[packet]] }
  | _ => l

/-- Modelled from the spec: `Listen()` of section 4.3, the listener's code
being absent: a `Created` listener becomes `Listening` and runs its cycles
until the socket is closed. -/
def Listen (lookup : ContainerLookup) (l : UDSListener) (cycles : List Cycle) : UDSListener :=
  match l.state with
  | ListenerState.Created =>
    cycles.foldl (readCycle lookup) { l with state := ListenerState.Listening }
  | _ => l

/-- The listener is running throughout these cycles: no read reports the
closed socket. -/
def Running (cycles : List Cycle) : Prop :=
  ∀ c ∈ cycles, c.read ≠ ReadResult.closed

instance Running.decidable (cycles : List Cycle) : Decidable (Running cycles) := by
  unfold Running
  infer_instance

/-- The scenario of the integration test: a pool of 32-byte buffers and origin
detection switched on. -/
def testConfig : ListenerConfig :=
  { bufferSize := 32, originDetection := true, oversize := Oversize.truncate }

/-- A 64-character container identifier. -/
def testContainerId : GoString :=
  bytes "abcdefabcdefabcdefabcdefabcdefabcdefabcdefabcdefabcdefabcdef0123"

/-- The lookup of the test scenario: process 4242 runs in the sender container. -/
def testLookup : ContainerLookup :=
  fun pid => if pid = 4242 then some testContainerId else none

/-- The datagram of the test scenario, read into a buffer that still holds
bytes of an earlier use. -/
def testCycle : Cycle :=
  { buffer := { slot := 0, data := bytes "stale-bytes-of-an-earlier-datagr" },
    read := ReadResult.datagram (bytes "custom_counter1:1|c") (some ⟨4242⟩) }

/-! ## Lemmas on the Go string functions -/

theorem genSplitLoop_length_pos (sep : GoString) (n : Nat) (s : GoString) :
    1 ≤ (genSplitLoop sep n s).length := by
  cases n with
  | zero => simp [genSplitLoop]
  | succ k =>
    unfold genSplitLoop
    cases Index s sep <;> simp

theorem Index_nil_of_ne_nil (sep : GoString) (h : sep ≠ []) : Index [] sep = none := by
  cases sep with
  | nil => exact absurd rfl h
  | cons a t => simp [Index]

theorem Split_length_two_le_iff (s sep : GoString) (h : sep ≠ []) :
    2 ≤ (Split s sep).length ↔ Contains s sep = true := by
  have hne : sep.isEmpty = false := by
    cases sep with
    | nil => exact absurd rfl h
    | cons a t => rfl
  unfold Split Contains
  rw [hne]
  simp only [Bool.false_eq_true, if_false]
  cases hI : Index s sep with
  | none =>
    cases s with
    | nil => simp [genSplitLoop]
    | cons c cs => simp [genSplitLoop, hI]
  | some m =>
    cases s with
    | nil => rw [Index_nil_of_ne_nil sep h] at hI; cases hI
    | cons c cs =>
      have := genSplitLoop_length_pos sep cs.length ((c :: cs).drop (m + sep.length))
      simp only [List.length_cons, genSplitLoop, hI, Option.isSome_some, iff_true]
      omega

theorem foldl_pickLine_ip (lines : List GoString) (p : Picked) :
    (lines.foldl pickLine p).ip =
      ((lines.filter (fun l => Contains l (bytes "IPv4"))).getLast?).getD p.ip := by
  induction lines using List.reverseRecOn with
  | nil => simp
  | append_singleton ls l ih =>
    rw [List.foldl_append, List.filter_append]
    simp only [List.foldl_cons, List.foldl_nil]
    by_cases hc : Contains l (bytes "IPv4") = true
    · simp [pickLine, hc, List.filter_cons]
    · simp only [pickLine, hc, Bool.false_eq_true, if_false, List.filter_cons, List.filter_nil,
        List.append_nil]
      split_ifs <;> simpa using ih


theorem noUsableIPv4_iff (out : GoString) :
    noUsableIPv4 out ↔
      ¬ 2 ≤ (Split ((Split out (bytes "\n")).foldl pickLine ⟨[], [], []⟩).ip (bytes ": ")).length := by
  have hsep : bytes ": " ≠ [] := by decide
  rw [Split_length_two_le_iff _ _ hsep, foldl_pickLine_ip]
  unfold noUsableIPv4 lastIPv4Line
  cases ((Split out (bytes "\n")).filter (fun l => Contains l (bytes "IPv4"))).getLast? with
  | none => simp [Contains, Index_nil_of_ne_nil _ hsep]
  | some l => simp

/-! ## `getNetworkInfo` -/

/-- C7: on the output of a host without IPv6, whose last "IPv4" line contains
": " and which has a "Physical Address" line and no "IPv6" line, the call ends
in an index-out-of-range panic at `elt[1]` instead of returning a map. -/
theorem getNetworkInfo_panics_without_IPv6_line :
    (∃ l, lastIPv4Line outputWithoutIPv6 = some l ∧ Contains l (bytes ": ") = true) ∧
    getNetworkInfo outputWithoutIPv6 none = Except.error (Panic.indexOutOfRange 1 1) :=
  ⟨⟨bytes "   IPv4 Address. . . . . . . . . . . : 192.168.1.5(Preferred) \r", by decide,
    by decide⟩, by rfl⟩

/-- C8: when the command succeeds, the error "not connected to the network" is
returned exactly when the output has no line containing "IPv4" or the last
such line lacks the separator ": ", and the map returned with it is empty; and
when the command fails, its error is returned with an empty map. -/
theorem getNetworkInfo_not_connected_iff (out : GoString) :
    ((∃ m, getNetworkInfo out none = Except.ok (m, some notConnected)) ↔ noUsableIPv4 out) ∧
    (∀ m e, getNetworkInfo out none = Except.ok (m, some e) → m = [] ∧ e = notConnected) ∧
    (∀ e, getNetworkInfo out (some e) = Except.ok ([], some e)) := by
  have hret : ∀ m e, getNetworkInfo out none = Except.ok (m, some e) →
      noUsableIPv4 out ∧ m = [] ∧ e = notConnected := by
    intro m e hret
    rw [noUsableIPv4_iff]
    by_cases h : 2 ≤ (Split ((Split out (bytes "\n")).foldl pickLine ⟨[], [], []⟩).ip
        (bytes ": ")).length
    · simp only [getNetworkInfo, h, if_true] at hret
      split at hret
      · cases hret
      · split at hret
        · cases hret
        · split at hret <;> cases hret
    · simp only [getNetworkInfo, h, if_false] at hret
      cases hret
      exact ⟨h, rfl, rfl⟩
  refine ⟨⟨?_, ?_⟩, ?_, fun e => rfl⟩
  · rintro ⟨m, hm⟩
    exact (hret m notConnected hm).1
  · intro hno
    rw [noUsableIPv4_iff] at hno
    exact ⟨[], by simp [getNetworkInfo, hno]⟩
  · intro m e hm
    exact (hret m e hm).2

/-- C9: on an output whose IPv6 line is
"   Link-local IPv6 Address . . . . . : fe80::1(Preferred) \r", the value
stored under "ipaddressv6" is "80::1": the leading "fe" of the address is
removed along with the annotation. -/
theorem getNetworkInfo_trims_address_digits :
    ((Split outputLinkLocal (bytes "\n")).foldl pickLine ⟨[], [], []⟩).ipv6 =
      bytes "   Link-local IPv6 Address . . . . . " ++ bytes ": " ++ bytes "fe80::1" ++
        bytes "(Preferred) \r" ∧
    getNetworkInfo outputLinkLocal none =
      Except.ok ([(bytes "ipaddress", GoValue.string (bytes "192.168.1.5")),
        (bytes "macaddress", GoValue.string (bytes "00-1A-2B-3C-4D-5E")),
        (bytes "ipaddressv6", GoValue.string (bytes "80::1"))], none) :=
  ⟨by decide, by rfl⟩

/-! ## `GetSystemProbeStats` -/

theorem run_of_connection_error {Util : Type} (net : ProbeNet Util) (socketPath : GoString)
    (e : GoError) (h : net.GetRemoteSystemProbeUtil socketPath = Except.error e) :
    GetSystemProbeStats net socketPath =
      { result := [(bytes "Errors", GoValue.string e.Error)],
        calls := [Call.GetRemoteSystemProbeUtil socketPath] } := by
  unfold GetSystemProbeStats
  rw [h]
  rfl

theorem run_of_query_error {Util : Type} (net : ProbeNet Util) (socketPath : GoString)
    (u : Util) (e : GoError) (hu : net.GetRemoteSystemProbeUtil socketPath = Except.ok u)
    (he : net.GetStats u = Except.error e) :
    GetSystemProbeStats net socketPath =
      { result := [(bytes "Errors",
          GoValue.string (bytes "issue querying stats from system probe: " ++ e.Error))],
        calls := [Call.GetRemoteSystemProbeUtil socketPath, Call.GetStats] } := by
  unfold GetSystemProbeStats
  rw [hu]
  simp only
  rw [he]
  rfl

theorem run_of_success {Util : Type} (net : ProbeNet Util) (socketPath : GoString)
    (u : Util) (m : GoMap) (hu : net.GetRemoteSystemProbeUtil socketPath = Except.ok u)
    (hm : net.GetStats u = Except.ok m) :
    GetSystemProbeStats net socketPath =
      { result := m, calls := [Call.GetRemoteSystemProbeUtil socketPath, Call.GetStats] } := by
  unfold GetSystemProbeStats
  rw [hu]
  simp only
  rw [hm]

/-- C1: if obtaining the remote client fails with error `e`, the function
returns the map whose only key is "Errors", bound to the rendering of `e`
with no prefix, and the stats are not queried. -/
theorem GetSystemProbeStats_connection_error {Util : Type} (net : ProbeNet Util)
    (socketPath : GoString) (e : GoError)
    (h : net.GetRemoteSystemProbeUtil socketPath = Except.error e) :
    (GetSystemProbeStats net socketPath).result = [(bytes "Errors", GoValue.string e.Error)] ∧
    (GetSystemProbeStats net socketPath).result.keys = [bytes "Errors"] ∧
    Call.GetStats ∉ (GetSystemProbeStats net socketPath).calls := by
  rw [run_of_connection_error net socketPath e h]
  refine ⟨rfl, rfl, ?_⟩
  simp

theorem GetSystemProbeStats_connection_error_witness :
    unreachableNet.GetRemoteSystemProbeUtil (bytes "/run/sysprobe.sock") =
        Except.error ⟨bytes "socket path does not exist"⟩ ∧
    ((GetSystemProbeStats unreachableNet (bytes "/run/sysprobe.sock")).result =
        [(bytes "Errors", GoValue.string (bytes "socket path does not exist"))] ∧
      (GetSystemProbeStats unreachableNet (bytes "/run/sysprobe.sock")).result.keys =
        [bytes "Errors"] ∧
      Call.GetStats ∉ (GetSystemProbeStats unreachableNet (bytes "/run/sysprobe.sock")).calls) :=
  ⟨rfl, GetSystemProbeStats_connection_error unreachableNet (bytes "/run/sysprobe.sock")
    ⟨bytes "socket path does not exist"⟩ rfl⟩

/-- C2: if the remote client is obtained and its `GetStats` query fails with
error `e`, the function returns the map whose only key is "Errors", bound to
"issue querying stats from system probe: " followed by the rendering of `e`. -/
theorem GetSystemProbeStats_query_error {Util : Type} (net : ProbeNet Util)
    (socketPath : GoString) (u : Util) (e : GoError)
    (hu : net.GetRemoteSystemProbeUtil socketPath = Except.ok u)
    (he : net.GetStats u = Except.error e) :
    (GetSystemProbeStats net socketPath).result =
      [(bytes "Errors",
        GoValue.string (bytes "issue querying stats from system probe: " ++ e.Error))] ∧
    (GetSystemProbeStats net socketPath).result.keys = [bytes "Errors"] := by
  unfold GetSystemProbeStats
  rw [hu]
  simp only
  rw [he]
  exact ⟨rfl, rfl⟩

theorem GetSystemProbeStats_query_error_witness :
    timeoutNet.GetRemoteSystemProbeUtil (bytes "/run/sysprobe.sock") = Except.ok () ∧
    timeoutNet.GetStats () = Except.error ⟨bytes "timeout"⟩ ∧
    ((GetSystemProbeStats timeoutNet (bytes "/run/sysprobe.sock")).result =
        [(bytes "Errors",
          GoValue.string (bytes "issue querying stats from system probe: " ++ bytes "timeout"))] ∧
      (GetSystemProbeStats timeoutNet (bytes "/run/sysprobe.sock")).result.keys =
        [bytes "Errors"]) :=
  ⟨rfl, rfl, GetSystemProbeStats_query_error timeoutNet (bytes "/run/sysprobe.sock") ()
    ⟨bytes "timeout"⟩ rfl rfl⟩

/-- C3: if obtaining the remote client and the `GetStats` query both succeed,
the function returns exactly the map that `GetStats` produced. -/
theorem GetSystemProbeStats_success {Util : Type} (net : ProbeNet Util)
    (socketPath : GoString) (u : Util) (m : GoMap)
    (hu : net.GetRemoteSystemProbeUtil socketPath = Except.ok u)
    (hm : net.GetStats u = Except.ok m) :
    (GetSystemProbeStats net socketPath).result = m := by
  rw [run_of_success net socketPath u m hu hm]

theorem GetSystemProbeStats_success_witness :
    healthyNet.GetRemoteSystemProbeUtil (bytes "/run/sysprobe.sock") = Except.ok () ∧
    healthyNet.GetStats () =
      Except.ok [(bytes "conns", GoValue.number 3), (bytes "uptime", GoValue.number 120)] ∧
    (GetSystemProbeStats healthyNet (bytes "/run/sysprobe.sock")).result =
      [(bytes "conns", GoValue.number 3), (bytes "uptime", GoValue.number 120)] :=
  ⟨rfl, rfl, GetSystemProbeStats_success healthyNet (bytes "/run/sysprobe.sock") ()
    [(bytes "conns", GoValue.number 3), (bytes "uptime", GoValue.number 120)] rfl rfl⟩

/-- C4, as stated, fails: when the stats themselves carry a key "Errors", the
returned map contains "Errors" although neither the connection nor the query
failed, and "Errors" is not its only key. -/
theorem Errors_key_not_reserved :
    bytes "Errors" ∈ (GetSystemProbeStats errorsCounterNet (bytes "/run/sysprobe.sock")).result.keys ∧
    ¬ ConnectionFailed errorsCounterNet (bytes "/run/sysprobe.sock") ∧
    ¬ QueryFailed errorsCounterNet (bytes "/run/sysprobe.sock") ∧
    (GetSystemProbeStats errorsCounterNet (bytes "/run/sysprobe.sock")).result.keys ≠
      [bytes "Errors"] := by
  refine ⟨by decide, ?_, ?_, by decide⟩
  · rintro ⟨e, he⟩
    cases he
  · rintro ⟨u, e, _, he⟩
    cases he

/-- C4, amended: whenever the returned map contains the key "Errors", either
the connection or the query failed and "Errors" is the only key, or both
succeeded and "Errors" is a key of the map `GetStats` produced, which is
returned unchanged. -/
theorem Errors_key_failure_or_from_stats {Util : Type} (net : ProbeNet Util)
    (socketPath : GoString)
    (h : bytes "Errors" ∈ (GetSystemProbeStats net socketPath).result.keys) :
    ((ConnectionFailed net socketPath ∨ QueryFailed net socketPath) ∧
      (GetSystemProbeStats net socketPath).result.keys = [bytes "Errors"]) ∨
    (∃ u m, net.GetRemoteSystemProbeUtil socketPath = Except.ok u ∧
      net.GetStats u = Except.ok m ∧ bytes "Errors" ∈ m.keys ∧
      (GetSystemProbeStats net socketPath).result = m) := by
  cases hu : net.GetRemoteSystemProbeUtil socketPath with
  | error e =>
    left
    rw [run_of_connection_error net socketPath e hu]
    exact ⟨Or.inl ⟨e, hu⟩, rfl⟩
  | ok u =>
    cases hm : net.GetStats u with
    | error e =>
      left
      rw [run_of_query_error net socketPath u e hu hm]
      exact ⟨Or.inr ⟨u, e, hu, hm⟩, rfl⟩
    | ok m =>
      right
      rw [run_of_success net socketPath u m hu hm] at h ⊢
      exact ⟨u, m, rfl, hm, h, rfl⟩

theorem Errors_key_failure_or_from_stats_witness :
    bytes "Errors" ∈ (GetSystemProbeStats timeoutNet (bytes "/run/sysprobe.sock")).result.keys ∧
    (((ConnectionFailed timeoutNet (bytes "/run/sysprobe.sock") ∨
        QueryFailed timeoutNet (bytes "/run/sysprobe.sock")) ∧
      (GetSystemProbeStats timeoutNet (bytes "/run/sysprobe.sock")).result.keys =
        [bytes "Errors"]) ∨
    (∃ u m, timeoutNet.GetRemoteSystemProbeUtil (bytes "/run/sysprobe.sock") = Except.ok u ∧
      timeoutNet.GetStats u = Except.ok m ∧ bytes "Errors" ∈ m.keys ∧
      (GetSystemProbeStats timeoutNet (bytes "/run/sysprobe.sock")).result = m)) :=
  ⟨by decide, Errors_key_failure_or_from_stats timeoutNet (bytes "/run/sysprobe.sock")
    (by decide)⟩

/-! ## Lemmas on the listener's read loop -/

theorem readCycle_config (lookup : ContainerLookup) (l : UDSListener) (c : Cycle) :
    (readCycle lookup l c).config = l.config := by
  unfold readCycle
  split
  · split
    · rfl
    · rfl
    · split <;> rfl
  · rfl

theorem foldl_readCycle_config (lookup : ContainerLookup) (cycles : List Cycle)
    (l : UDSListener) : (cycles.foldl (readCycle lookup) l).config = l.config := by
  induction cycles generalizing l with
  | nil => rfl
  | cons c cs ih => rw [List.foldl_cons, ih, readCycle_config]

theorem readCycle_state_of_running (lookup : ContainerLookup) (l : UDSListener) (c : Cycle)
    (hl : l.state = ListenerState.Listening) (hc : c.read ≠ ReadResult.closed) :
    (readCycle lookup l c).state = ListenerState.Listening := by
  unfold readCycle
  rw [hl]
  simp only
  split
  · exact absurd (by assumption) hc
  · exact hl
  · split
    · exact hl
    · rfl

theorem foldl_readCycle_state (lookup : ContainerLookup) (cycles : List Cycle)
    (l : UDSListener) (hl : l.state = ListenerState.Listening) (hrun : Running cycles) :
    (cycles.foldl (readCycle lookup) l).state = ListenerState.Listening := by
  induction cycles generalizing l with
  | nil => exact hl
  | cons c cs ih =>
    rw [List.foldl_cons]
    apply ih
    · exact readCycle_state_of_running lookup l c hl (hrun c (List.mem_cons_self c cs))
    · intro d hd
      exact hrun d (List.mem_cons_of_mem c hd)

theorem readCycle_channel_grows (lookup : ContainerLookup) (l : UDSListener) (c : Cycle) :
    l.packetsChannel <+: (readCycle lookup l c).packetsChannel := by
  unfold readCycle
  split
  · split
    · exact List.prefix_refl _
    · exact List.prefix_refl _
    · split
      · exact List.prefix_refl _
      · exact List.prefix_append _ _
  · exact List.prefix_refl _

theorem foldl_readCycle_channel_grows (lookup : ContainerLookup) (cycles : List Cycle)
    (l : UDSListener) :
    l.packetsChannel <+: (cycles.foldl (readCycle lookup) l).packetsChannel := by
  induction cycles generalizing l with
  | nil => exact List.prefix_refl _
  | cons c cs ih =>
    rw [List.foldl_cons]
    exact List.IsPrefix.trans (readCycle_channel_grows lookup l c) (ih _)

theorem Listen_append (lookup : ContainerLookup) (l : UDSListener) (pre post : List Cycle)
    (hl : l.state = ListenerState.Created) :
    Listen lookup l (pre ++ post) =
      post.foldl (readCycle lookup) (Listen lookup l pre) := by
  unfold Listen
  rw [hl]
  simp only [List.foldl_append]

theorem Listen_running (lookup : ContainerLookup) (l : UDSListener) (pre : List Cycle)
    (hl : l.state = ListenerState.Created) (hrun : Running pre) :
    (Listen lookup l pre).state = ListenerState.Listening ∧
      (Listen lookup l pre).config = l.config := by
  unfold Listen
  rw [hl]
  simp only
  exact ⟨foldl_readCycle_state lookup pre _ rfl hrun, foldl_readCycle_config lookup pre _⟩

theorem NewUDSListener_ok (cfg : ListenerConfig) (l : UDSListener)
    (hnew : NewUDSListener cfg none = Except.ok l) :
    l.state = ListenerState.Created ∧ l.config = cfg ∧ l.packetsChannel = [] := by
  unfold NewUDSListener at hnew
  cases hnew
  exact ⟨rfl, rfl, rfl⟩

theorem readInto_contents (bufferSize : Nat) (buf : Buffer) (payload : GoString)
    (h : payload.length ≤ bufferSize) :
    (readInto bufferSize buf payload).2.take (readInto bufferSize buf payload).1 = payload := by
  unfold readInto
  simp only [Nat.min_eq_left h, List.take_length]
  rw [List.take_append_of_le_length (by simp)]
  simp

/-! ## The listener's read loop -/

/-- C5: with origin detection enabled, for a datagram read while the listener
is running whose sender's process belongs to a container with 64-character
identifier `id`, every packet the listener sends for it has `Origin` equal to
"container_id://" followed by `id`, and exactly one packet is sent for it
unless the datagram is oversized and rejected. -/
theorem Listen_origin_of_container (cfg : ListenerConfig) (lookup : ContainerLookup)
    (l : UDSListener) (pre : List Cycle) (buf : Buffer) (payload : GoString) (pid : Nat)
    (id : GoString)
    (hnew : NewUDSListener cfg none = Except.ok l)
    (hrun : Running pre)
    (hdet : cfg.originDetection = true)
    (hid : lookup pid = some id)
    (_hlen : id.length = 64) :
    ∃ sent : List Packets,
      (Listen lookup l (pre ++ [⟨buf, ReadResult.datagram payload (some ⟨pid⟩)⟩])).packetsChannel =
        (Listen lookup l pre).packetsChannel ++ sent ∧
      (∀ batch ∈ sent, ∀ pkt ∈ batch, pkt.Origin = bytes "container_id://" ++ id) ∧
      (payload.length ≤ cfg.bufferSize ∨ cfg.oversize = Oversize.truncate →
        ∃ pkt, sent = [[pkt]]) := by
  obtain ⟨hst, hcfg, _⟩ := NewUDSListener_ok cfg l hnew
  obtain ⟨hlis, hc⟩ := Listen_running lookup l pre hst hrun
  rw [hcfg] at hc
  rw [Listen_append lookup l pre _ hst]
  simp only [List.foldl_cons, List.foldl_nil, readCycle, hlis, hc, hdet, if_true,
    resolveOrigin, hid]
  by_cases hrej : cfg.bufferSize < payload.length ∧ cfg.oversize = Oversize.reject
  · refine ⟨[], ?_, ?_, ?_⟩
    · simp [hrej]
    · intro batch hb
      cases hb
    · intro hacc
      rcases hacc with hle | htr
      · omega
      · rw [htr] at hrej
        exact absurd hrej.2 (by decide)
  · refine ⟨[[⟨(readInto cfg.bufferSize buf payload).2.take (readInto cfg.bufferSize buf payload).1,
      bytes "container_id://" ++ id, buf.slot⟩]], ?_, ?_, ?_⟩
    · simp only [hrej, if_false]
    · intro batch hb pkt hp
      simp only [List.mem_singleton] at hb
      subst hb
      simp only [List.mem_singleton] at hp
      subst hp
      rfl
    · intro _
      exact ⟨_, rfl⟩

theorem Listen_origin_of_container_witness :
    NewUDSListener testConfig none = Except.ok ⟨testConfig, ListenerState.Created, []⟩ ∧
    Running [⟨⟨1, []⟩, ReadResult.failed⟩] ∧
    testConfig.originDetection = true ∧
    testLookup 4242 = some testContainerId ∧
    testContainerId.length = 64 ∧
    ∃ sent : List Packets,
      (Listen testLookup ⟨testConfig, ListenerState.Created, []⟩
        ([⟨⟨1, []⟩, ReadResult.failed⟩] ++
          [⟨testCycle.buffer,
            ReadResult.datagram (bytes "custom_counter1:1|c") (some ⟨4242⟩)⟩])).packetsChannel =
        (Listen testLookup ⟨testConfig, ListenerState.Created, []⟩
          [⟨⟨1, []⟩, ReadResult.failed⟩]).packetsChannel ++ sent ∧
      (∀ batch ∈ sent, ∀ pkt ∈ batch, pkt.Origin = bytes "container_id://" ++ testContainerId) ∧
      (List.length (bytes "custom_counter1:1|c") ≤ testConfig.bufferSize ∨
          testConfig.oversize = Oversize.truncate →
        ∃ pkt, sent = [[pkt]]) :=
  ⟨rfl, by decide, rfl, rfl, by decide,
    Listen_origin_of_container testConfig testLookup ⟨testConfig, ListenerState.Created, []⟩
      [⟨⟨1, []⟩, ReadResult.failed⟩] testCycle.buffer (bytes "custom_counter1:1|c") 4242
      testContainerId rfl (by decide) rfl rfl (by decide)⟩

/-- C6: for a valid datagram (one that fits the buffer) read while the
listener is running, the listener sends exactly one batch holding exactly one
packet for it, whose `Contents` equals the payload sent, and later cycles only
add to the channel. -/
theorem Listen_one_packet_per_datagram (cfg : ListenerConfig) (lookup : ContainerLookup)
    (l : UDSListener) (pre post : List Cycle) (buf : Buffer) (payload : GoString)
    (cred : Option Credential)
    (hnew : NewUDSListener cfg none = Except.ok l)
    (hrun : Running pre)
    (hvalid : payload.length ≤ cfg.bufferSize) :
    ∃ pkt : Packet, pkt.Contents = payload ∧
      (Listen lookup l (pre ++ [⟨buf, ReadResult.datagram payload cred⟩])).packetsChannel =
        (Listen lookup l pre).packetsChannel ++ [[pkt]] ∧
      (Listen lookup l (pre ++ [⟨buf, ReadResult.datagram payload cred⟩])).packetsChannel <+:
        (Listen lookup l
          ((pre ++ [⟨buf, ReadResult.datagram payload cred⟩]) ++ post)).packetsChannel := by
  obtain ⟨hst, hcfg, _⟩ := NewUDSListener_ok cfg l hnew
  obtain ⟨hlis, hc⟩ := Listen_running lookup l pre hst hrun
  rw [hcfg] at hc
  have hrej : ¬ (cfg.bufferSize < payload.length ∧ cfg.oversize = Oversize.reject) := by
    intro h
    omega
  refine ⟨⟨payload, if cfg.originDetection then resolveOrigin lookup cred else [], buf.slot⟩,
    rfl, ?_, ?_⟩
  · rw [Listen_append lookup l pre _ hst]
    simp only [List.foldl_cons, List.foldl_nil, readCycle, hlis, hc, hrej, if_false,
      readInto_contents cfg.bufferSize buf payload hvalid]
  · rw [Listen_append lookup l _ post hst]
    exact foldl_readCycle_channel_grows lookup post _

theorem Listen_one_packet_per_datagram_witness :
    NewUDSListener testConfig none = Except.ok ⟨testConfig, ListenerState.Created, []⟩ ∧
    Running [⟨⟨1, []⟩, ReadResult.failed⟩] ∧
    List.length (bytes "custom_counter1:1|c") ≤ testConfig.bufferSize ∧
    ∃ pkt : Packet, pkt.Contents = bytes "custom_counter1:1|c" ∧
      (Listen testLookup ⟨testConfig, ListenerState.Created, []⟩
        ([⟨⟨1, []⟩, ReadResult.failed⟩] ++
          [⟨testCycle.buffer,
            ReadResult.datagram (bytes "custom_counter1:1|c") (some ⟨4242⟩)⟩])).packetsChannel =
        (Listen testLookup ⟨testConfig, ListenerState.Created, []⟩
          [⟨⟨1, []⟩, ReadResult.failed⟩]).packetsChannel ++ [[pkt]] ∧
      (Listen testLookup ⟨testConfig, ListenerState.Created, []⟩
        ([⟨⟨1, []⟩, ReadResult.failed⟩] ++
          [⟨testCycle.buffer,
            ReadResult.datagram (bytes "custom_counter1:1|c") (some ⟨4242⟩)⟩])).packetsChannel <+:
        (Listen testLookup ⟨testConfig, ListenerState.Created, []⟩
          (([⟨⟨1, []⟩, ReadResult.failed⟩] ++
            [⟨testCycle.buffer,
              ReadResult.datagram (bytes "custom_counter1:1|c") (some ⟨4242⟩)⟩]) ++
            [⟨⟨2, []⟩, ReadResult.closed⟩])).packetsChannel :=
  ⟨rfl, by decide, by decide,
    Listen_one_packet_per_datagram testConfig testLookup ⟨testConfig, ListenerState.Created, []⟩
      [⟨⟨1, []⟩, ReadResult.failed⟩] [⟨⟨2, []⟩, ReadResult.closed⟩] testCycle.buffer
      (bytes "custom_counter1:1|c") (some ⟨4242⟩) rfl (by decide) (by decide)⟩

end Agent
